import Mathlib

set_option autoImplicit false

/-!
Verification of the embedding serving pipeline: the Model Host
(`bin/lxc_setup/embedding_server.py`) and the Request Proxy
(`src/rag-api-service/rag_api/main.py`).

The Model Host is embedded as pure functions over a `ServerState`,
whose `model` field holds the loaded model as its `encode` function
(an oracle: the SentenceTransformer model is an external library, not
repository code).  Embedding vectors are abstracted by a type
parameter `E`, since no property under study inspects vector contents.
-/

namespace EmbeddingServer

/-- The `input` field of an embedding request: `Union[str, List[str]]`. -/
inductive EmbInput where
  | single (s : String)
  | batch (ss : List String)
  deriving DecidableEq

/-- Pydantic `EmbeddingRequest`: a model identifier and the input text(s). -/
structure EmbeddingRequest where
  model : String
  input : EmbInput
  deriving DecidableEq

/-- Pydantic `EmbeddingData`: one embedding vector of the response. -/
structure EmbeddingData (E : Type) where
  object : String := "embedding"
  embedding : E
  index : Nat
  deriving DecidableEq

/-- Pydantic `UsageData`: token usage counters, defaulted to zero. -/
structure UsageData where
  prompt_tokens : Nat := 0
  total_tokens : Nat := 0
  deriving DecidableEq

/-- Pydantic `EmbeddingResponse`: the success payload of `/v1/embeddings`. -/
structure EmbeddingResponse (E : Type) where
  object : String := "list"
  data : List (EmbeddingData E)
  model : String
  usage : UsageData
  deriving DecidableEq

/-- The Model Host process state: the module-level globals `model` and
`model_name`.  `model` is `none` until startup populates it; a loaded model
is represented by its `encode` function, which maps a batch of input strings
to embedding vectors, or fails with an exception message. -/
structure ServerState (E : Type) where
  model : Option (List String → Except String (List E))
  model_name : String

/-- Outcome of a request handler: a successful response, or a raised
`HTTPException` carrying a status code and a `detail` message. -/
inductive HostResult (E : Type) where
  | ok (resp : EmbeddingResponse E)
  | httpError (status : Nat) (detail : String)
  deriving DecidableEq

/-- Input normalization of `create_embeddings`, line 103 of the source:
a single string becomes a one-element list, a list is kept as given. -/
def normalizeInput : EmbInput → List String
  | .single s => [s]
  | .batch ss => ss

/-- The `POST /v1/embeddings` handler `create_embeddings` of
`embedding_server.py` (lines 84-121): reject if the model is not loaded
(503), reject a mismatched model name (400), normalize the input, encode it
(500 on an exception), then build the response by enumerating the returned
embeddings. -/
def create_embeddings {E : Type} (st : ServerState E) (request : EmbeddingRequest) :
    HostResult E :=
  match st.model with
  | none => .httpError 503 "Model is not loaded yet."
  | some encode =>
    if request.model ≠ st.model_name then
      .httpError 400 ("Invalid model requested. This server is serving \x27" ++
        st.model_name ++ "\x27, but you requested \x27" ++ request.model ++ "\x27.")
    else
      match encode (normalizeInput request.input) with
      | .error e => .httpError 500 ("Error during embedding generation: " ++ e)
      | .ok embeddings =>
        .ok { data := embeddings.enum.map (fun p => { embedding := p.2, index := p.1 }),
              model := st.model_name,
              usage := {} }

/-- The `GET /health` handler of `embedding_server.py` (lines 79-82): the
body reads no globals and returns the constant object with key "status"
mapped to "ok", modelled as a key-value list. -/
def health_check {E : Type} (_st : ServerState E) : List (String × String) :=
  [("status", "ok")]

/-- Sequential serving of several requests by one Host process: the handler
assigns no globals (it only reads `model` and `model_name`), so every
request observes the same state. -/
def serve {E : Type} (st : ServerState E) (reqs : List EmbeddingRequest) :
    List (HostResult E) :=
  reqs.map (create_embeddings st)

/-- C1: for a request whose model matches the loaded identifier and whose
input normalizes to N strings, a successful encoding yields a response with
object "list", data of length N, data.get i with index i for every i in
input order, model equal to the loaded identifier, and usage all zero. -/
theorem create_embeddings_response_shape {E : Type} (st : ServerState E)
    (encode : List String → Except String (List E)) (req : EmbeddingRequest)
    (embs : List E)
    (hload : st.model = some encode)
    (hmodel : req.model = st.model_name)
    (henc : encode (normalizeInput req.input) = .ok embs)
    (hlen : embs.length = (normalizeInput req.input).length) :
    ∃ resp : EmbeddingResponse E,
      create_embeddings st req = .ok resp ∧
      resp.object = "list" ∧
      resp.data.length = (normalizeInput req.input).length ∧
      (∀ i (h : i < resp.data.length), (resp.data.get ⟨i, h⟩).index = i) ∧
      resp.model = st.model_name ∧
      resp.usage.prompt_tokens = 0 ∧ resp.usage.total_tokens = 0 := by
  refine ⟨{ data := embs.enum.map (fun p => { embedding := p.2, index := p.1 }),
            model := st.model_name, usage := {} }, ?_, rfl, ?_, ?_, rfl, rfl, rfl⟩
  · unfold create_embeddings
    rw [hload]
    simp [hmodel, henc]
  · simp [hlen]
  · intro i h
    simp [List.get_eq_getElem, List.getElem_map, List.getElem_enum]

/-- Witness for C1 at a concrete two-string batch. -/
theorem create_embeddings_response_shape_witness :
    ∃ resp : EmbeddingResponse Nat,
      create_embeddings ⟨some (fun ss => .ok (ss.map (fun _ => 0))), "m"⟩
        ⟨"m", .batch ["a", "b"]⟩ = .ok resp ∧
      resp.object = "list" ∧
      resp.data.length = (normalizeInput (.batch ["a", "b"])).length ∧
      (∀ i (h : i < resp.data.length), (resp.data.get ⟨i, h⟩).index = i) ∧
      resp.model = "m" ∧
      resp.usage.prompt_tokens = 0 ∧ resp.usage.total_tokens = 0 :=
  create_embeddings_response_shape
    ⟨some (fun ss => .ok (ss.map (fun _ => 0))), "m"⟩
    (fun ss => .ok (ss.map (fun _ => 0)))
    ⟨"m", .batch ["a", "b"]⟩ [0, 0] rfl rfl rfl rfl

/-- C2: a request to a loaded Host whose model field differs from the loaded
identifier yields the 400 error naming both identifiers, and the result does
not depend on the model (the inference step is never consulted). -/
theorem create_embeddings_model_mismatch {E : Type} (st : ServerState E)
    (encode : List String → Except String (List E)) (req : EmbeddingRequest)
    (hload : st.model = some encode)
    (hne : req.model ≠ st.model_name) :
    create_embeddings st req =
      .httpError 400 ("Invalid model requested. This server is serving \x27" ++
        st.model_name ++ "\x27, but you requested \x27" ++ req.model ++ "\x27.") ∧
    (∃ a b c : String,
      "Invalid model requested. This server is serving \x27" ++ st.model_name ++
        "\x27, but you requested \x27" ++ req.model ++ "\x27." =
        a ++ st.model_name ++ (b ++ req.model ++ c)) ∧
    (∀ encode2 : List String → Except String (List E),
      create_embeddings { st with model := some encode2 } req =
        create_embeddings st req) := by
  have hmain : create_embeddings st req =
      .httpError 400 ("Invalid model requested. This server is serving \x27" ++
        st.model_name ++ "\x27, but you requested \x27" ++ req.model ++ "\x27.") := by
    unfold create_embeddings
    rw [hload]
    simp [hne]
  refine ⟨hmain, ⟨"Invalid model requested. This server is serving \x27",
    "\x27, but you requested \x27", "\x27.", by simp [String.append_assoc]⟩, ?_⟩
  intro encode2
  rw [hmain]
  unfold create_embeddings
  simp [hne]

/-- Witness for C2 at a concrete mismatched request. -/
theorem create_embeddings_model_mismatch_witness :
    create_embeddings (⟨some (fun _ => .ok ([] : List Nat)), "m"⟩ : ServerState Nat)
      ⟨"wrong-model", .single "hello"⟩ =
      .httpError 400 ("Invalid model requested. This server is serving \x27" ++
        "m" ++ "\x27, but you requested \x27" ++ "wrong-model" ++ "\x27.") ∧
    (∃ a b c : String,
      "Invalid model requested. This server is serving \x27" ++ "m" ++
        "\x27, but you requested \x27" ++ "wrong-model" ++ "\x27." =
        a ++ "m" ++ (b ++ "wrong-model" ++ c)) ∧
    (∀ encode2 : List String → Except String (List Nat),
      create_embeddings { model := some encode2, model_name := "m" }
        ⟨"wrong-model", .single "hello"⟩ =
        create_embeddings (⟨some (fun _ => .ok ([] : List Nat)), "m"⟩ : ServerState Nat)
          ⟨"wrong-model", .single "hello"⟩) :=
  create_embeddings_model_mismatch
    ⟨some (fun _ => .ok ([] : List Nat)), "m"⟩
    (fun _ => .ok ([] : List Nat))
    ⟨"wrong-model", .single "hello"⟩ rfl (by decide)

/-- C7 counterexample: the health check returns the same value on a state
where the model has not loaded and on a state where it has — the claim that
the two calls yield different results is false. -/
theorem health_check_ignores_load_state :
    health_check (⟨none, ""⟩ : ServerState Nat) =
      health_check (⟨some (fun _ => .ok ([] : List Nat)), "m"⟩ : ServerState Nat) :=
  rfl

/-- C7 amended: the health check returns the constant "ok" status on every
state, whether or not the model has completed loading. -/
theorem health_check_constant_ok {E : Type} (st : ServerState E) :
    health_check st = [("status", "ok")] :=
  rfl

/-- C8: when encoding raises with cause `e`, the handler returns the 500
error whose detail is a fixed prefix followed by the cause, and the failure
is request-scoped: a later request on the same process state is served
normally. -/
theorem create_embeddings_inference_failure {E : Type} (st : ServerState E)
    (encode : List String → Except String (List E))
    (req req2 : EmbeddingRequest) (e : String) (embs2 : List E)
    (hload : st.model = some encode)
    (hmodel : req.model = st.model_name)
    (hmodel2 : req2.model = st.model_name)
    (henc : encode (normalizeInput req.input) = .error e)
    (henc2 : encode (normalizeInput req2.input) = .ok embs2) :
    (∃ p : String, create_embeddings st req = .httpError 500 (p ++ e) ∧
      p = "Error during embedding generation: ") ∧
    (∃ resp : EmbeddingResponse E, create_embeddings st req2 = .ok resp) ∧
    serve st [req, req2] =
      [.httpError 500 ("Error during embedding generation: " ++ e),
       .ok { data := embs2.enum.map (fun p => { embedding := p.2, index := p.1 }),
             model := st.model_name, usage := {} }] := by
  have h1 : create_embeddings st req =
      .httpError 500 ("Error during embedding generation: " ++ e) := by
    unfold create_embeddings
    rw [hload]
    simp [hmodel, henc]
  have h2 : create_embeddings st req2 =
      .ok { data := embs2.enum.map (fun p => { embedding := p.2, index := p.1 }),
            model := st.model_name, usage := {} } := by
    unfold create_embeddings
    rw [hload]
    simp [hmodel2, henc2]
  exact ⟨⟨"Error during embedding generation: ", h1, rfl⟩, ⟨_, h2⟩,
    by simp [serve, h1, h2]⟩

/-- Witness for C8: encoding fails on the first request and succeeds on the
second, against one concrete state. -/
theorem create_embeddings_inference_failure_witness :
    (∃ p : String,
      create_embeddings
        (⟨some (fun ss => if ss = ["bad"] then .error "boom"
                          else .ok (ss.map (fun _ => 0))), "m"⟩ : ServerState Nat)
        ⟨"m", .single "bad"⟩ = .httpError 500 (p ++ "boom") ∧
      p = "Error during embedding generation: ") ∧
    (∃ resp : EmbeddingResponse Nat,
      create_embeddings
        (⟨some (fun ss => if ss = ["bad"] then .error "boom"
                          else .ok (ss.map (fun _ => 0))), "m"⟩ : ServerState Nat)
        ⟨"m", .single "good"⟩ = .ok resp) ∧
    serve
      (⟨some (fun ss => if ss = ["bad"] then .error "boom"
                        else .ok (ss.map (fun _ => 0))), "m"⟩ : ServerState Nat)
      [⟨"m", .single "bad"⟩, ⟨"m", .single "good"⟩] =
      [.httpError 500 ("Error during embedding generation: " ++ "boom"),
       .ok { data := ([0] : List Nat).enum.map
               (fun p => { embedding := p.2, index := p.1 }),
             model := "m", usage := {} }] :=
  create_embeddings_inference_failure
    ⟨some (fun ss => if ss = ["bad"] then .error "boom"
                     else .ok (ss.map (fun _ => 0))), "m"⟩
    (fun ss => if ss = ["bad"] then .error "boom" else .ok (ss.map (fun _ => 0)))
    ⟨"m", .single "bad"⟩ ⟨"m", .single "good"⟩ "boom" [0]
    rfl rfl rfl (by simp [normalizeInput]) (by simp [normalizeInput])

/-- C10: an empty-list input with a matching model name passes both
validation branches, reaches the encoding step, and (encoding succeeding on
the empty batch, with one vector per input) produces the success response
with empty data and zero usage. -/
theorem create_embeddings_empty_input {E : Type} (st : ServerState E)
    (encode : List String → Except String (List E)) (embs : List E)
    (hload : st.model = some encode)
    (henc : encode [] = .ok embs)
    (hlen : embs.length = 0) :
    create_embeddings st { model := st.model_name, input := .batch [] } =
      .ok { data := [], model := st.model_name,
            usage := { prompt_tokens := 0, total_tokens := 0 } } := by
  have hnil : embs = [] := List.length_eq_zero.mp hlen
  unfold create_embeddings
  rw [hload]
  simp [normalizeInput, henc, hnil]

/-- Witness for C10 at a concrete state. -/
theorem create_embeddings_empty_input_witness :
    create_embeddings (⟨some (fun ss => .ok (ss.map (fun _ => 0))), "m"⟩ : ServerState Nat)
      { model := "m", input := .batch [] } =
      .ok { data := [], model := "m",
            usage := { prompt_tokens := 0, total_tokens := 0 } } :=
  create_embeddings_empty_input
    ⟨some (fun ss => .ok (ss.map (fun _ => 0))), "m"⟩
    (fun ss => .ok (ss.map (fun _ => 0))) [] rfl rfl rfl

end EmbeddingServer

namespace RagApi

/-!
The Request Proxy (`rag_api/main.py`).  The handler parses the client body
(`await request.json()`), forwards it with `json=body` — which httpx
re-serializes — and, on the way back, parses the Host body with `.json()`
and re-serializes it through `JSONResponse`.  JSON documents are modelled
by the `Json` type below with a compact serializer matching
`json.dumps` with "," and ":" separators (what JSONResponse and httpx
emit), and a parser modelling `json.loads` on the subset without escape
sequences and non-integer numbers; none of the properties under study
depends on the omitted lexical forms.
-/

/-- A JSON document. -/
inductive Json where
  | null
  | bool (b : Bool)
  | num (n : Int)
  | str (s : String)
  | arr (elems : List Json)
  | obj (fields : List (String × Json))

/-- The opening brace character. -/
def lbrace : Char := Char.ofNat 123

/-- The closing brace character. -/
def rbrace : Char := Char.ofNat 125

mutual

/-- Compact serialization: `json.dumps` with "," and ":" separators. -/
def renderJson : Json → String
  | .null => "null"
  | .bool true => "true"
  | .bool false => "false"
  | .num n => toString n
  | .str s => "\"" ++ s ++ "\""
  | .arr xs => "[" ++ renderElems xs ++ "]"
  | .obj kvs => String.singleton lbrace ++ renderFields kvs ++ String.singleton rbrace

/-- Serialization of array elements, comma-separated. -/
def renderElems : List Json → String
  | [] => ""
  | [x] => renderJson x
  | x :: y :: xs => renderJson x ++ "," ++ renderElems (y :: xs)

/-- Serialization of object fields, comma-separated. -/
def renderFields : List (String × Json) → String
  | [] => ""
  | [(k, v)] => "\"" ++ k ++ "\":" ++ renderJson v
  | (k, v) :: f :: fs => "\"" ++ k ++ "\":" ++ renderJson v ++ "," ++ renderFields (f :: fs)

end

/-- Whitespace as skipped by `json.loads`. -/
def isWs (c : Char) : Bool :=
  c == ' ' || c == '\n' || c == '\t' || c == '\r'

/-- Drop leading whitespace. -/
def skipWs : List Char → List Char
  | [] => []
  | c :: cs => if isWs c then skipWs cs else c :: cs

/-- Read the characters of a string literal up to the closing quote
(escape sequences are outside the modelled subset). -/
def takeStr : List Char → Option (List Char × List Char)
  | [] => none
  | c :: cs =>
    if c == '"' then some ([], cs)
    else
      match takeStr cs with
      | some (ks, rest) => some (c :: ks, rest)
      | none => none

/-- Read a maximal run of decimal digits. -/
def takeDigits : List Char → List Char × List Char
  | [] => ([], [])
  | c :: cs =>
    if c.isDigit then
      match takeDigits cs with
      | (ds, rest) => (c :: ds, rest)
    else ([], c :: cs)

/-- Value of a run of decimal digits. -/
def digitsToNat (ds : List Char) : Nat :=
  ds.foldl (fun n c => 10 * n + (c.toNat - 48)) 0

mutual

/-- Fuel-indexed recursive-descent parser for one JSON value, modelling
`json.loads` on the subset described above.  Returns the value and the
unconsumed remainder. -/
def parseVal : Nat → List Char → Option (Json × List Char)
  | 0, _ => none
  | Nat.succ fuel, cs =>
    match skipWs cs with
    | [] => none
    | c :: rest =>
      if c == '"' then
        match takeStr rest with
        | some (ks, rest2) => some (.str (String.mk ks), rest2)
        | none => none
      else if c == '[' then
        match skipWs rest with
        | [] => none
        | d :: rest2 =>
          if d == ']' then some (.arr [], rest2)
          else
            match parseElems fuel (d :: rest2) with
            | some (xs, rest3) =>
              match skipWs rest3 with
              | d2 :: rest4 => if d2 == ']' then some (.arr xs, rest4) else none
              | [] => none
            | none => none
      else if c == lbrace then
        match skipWs rest with
        | [] => none
        | d :: rest2 =>
          if d == rbrace then some (.obj [], rest2)
          else
            match parseFields fuel (d :: rest2) with
            | some (fs, rest3) =>
              match skipWs rest3 with
              | d2 :: rest4 => if d2 == rbrace then some (.obj fs, rest4) else none
              | [] => none
            | none => none
      else if c == 't' then
        match rest with
        | 'r' :: 'u' :: 'e' :: rest2 => some (.bool true, rest2)
        | _ => none
      else if c == 'f' then
        match rest with
        | 'a' :: 'l' :: 's' :: 'e' :: rest2 => some (.bool false, rest2)
        | _ => none
      else if c == 'n' then
        match rest with
        | 'u' :: 'l' :: 'l' :: rest2 => some (.null, rest2)
        | _ => none
      else if c == '-' then
        match takeDigits rest with
        | ([], _) => none
        | (ds, rest2) => some (.num (-(digitsToNat ds : Int)), rest2)
      else if c.isDigit then
        match takeDigits (c :: rest) with
        | (ds, rest2) => some (.num (digitsToNat ds), rest2)
      else none

/-- Parse one or more comma-separated array elements. -/
def parseElems : Nat → List Char → Option (List Json × List Char)
  | 0, _ => none
  | Nat.succ fuel, cs =>
    match parseVal fuel cs with
    | none => none
    | some (v, rest) =>
      match skipWs rest with
      | [] => some ([v], [])
      | c :: rest2 =>
        if c == ',' then
          match parseElems fuel rest2 with
          | some (vs, rest3) => some (v :: vs, rest3)
          | none => none
        else some ([v], c :: rest2)

/-- Parse one or more comma-separated object fields. -/
def parseFields : Nat → List Char → Option (List (String × Json) × List Char)
  | 0, _ => none
  | Nat.succ fuel, cs =>
    match skipWs cs with
    | [] => none
    | c :: rest =>
      if c == '"' then
        match takeStr rest with
        | none => none
        | some (ks, rest2) =>
          match skipWs rest2 with
          | [] => none
          | d :: rest3 =>
            if d == ':' then
              match parseVal fuel rest3 with
              | none => none
              | some (v, rest4) =>
                match skipWs rest4 with
                | [] => some ([(String.mk ks, v)], [])
                | d2 :: rest5 =>
                  if d2 == ',' then
                    match parseFields fuel rest5 with
                    | some (fs, rest6) => some ((String.mk ks, v) :: fs, rest6)
                    | none => none
                  else some ([(String.mk ks, v)], d2 :: rest5)
            else none
      else none

end

/-- `json.loads` of a whole document: parse one value and require only
whitespace after it. -/
def jsonParse (s : String) : Option Json :=
  match parseVal (s.length + 1) s.toList with
  | some (v, rest) => if (skipWs rest).isEmpty then some v else none
  | none => none

/-- The fixed ceiling on the outbound call, `timeout=60.0` in `main.py`. -/
def TIMEOUT : Nat := 60

/-- An outbound HTTP request as constructed by the Proxy handler: the body
httpx serializes from the `json=body` argument, the forwarded headers, and
the timeout. -/
structure OutboundRequest where
  body : String
  headers : List (String × String)
  timeout : Nat
  deriving DecidableEq

/-- Transport outcome of the outbound `client.post` call: a transport-level
failure (`httpx.RequestError`) with its message, or a reply carrying a
status code and a raw body. -/
inductive Transport where
  | err (msg : String)
  | reply (status : Nat) (body : String)
  deriving DecidableEq

/-- What the Proxy handler produces for one request: a `JSONResponse` with
status and body, a raised `HTTPException` (which FastAPI renders as the
documented JSON error shape with the given status and detail), or an
exception escaping the handler unhandled. -/
inductive ProxyResult where
  | response (status : Nat) (body : String)
  | httpError (status : Nat) (detail : String)
  | unhandled (msg : String)
  deriving DecidableEq

/-- Header passthrough, line 31 of `main.py`: keep every header whose
lowercased name is neither "host" nor "content-length". -/
def forwardedHeaders (hs : List (String × String)) : List (String × String) :=
  hs.filter (fun kv => !(kv.1.toLower == "host" || kv.1.toLower == "content-length"))

/-- The outbound request the handler constructs (lines 22-33 of `main.py`):
`await request.json()` parses the client body (`none` models the parse
raising), then httpx re-serializes the parsed value, attaches the filtered
headers and the fixed timeout. -/
def builtRequest (clientBody : String) (clientHeaders : List (String × String)) :
    Option OutboundRequest :=
  (jsonParse clientBody).map (fun body =>
    { body := renderJson body,
      headers := forwardedHeaders clientHeaders,
      timeout := TIMEOUT })

/-- The `POST /v1/embeddings` Proxy handler `create_embedding` of `main.py`
(lines 13-58).  `send` is the outbound transport.  A client-body parse
failure is caught by the final broad except clause (500).  On a reply,
`raise_for_status` accepts exactly the 2xx range; the success path parses
and re-serializes the Host body, a parse failure there being caught by the
broad except clause (500).  On a non-2xx reply the `HTTPStatusError`
handler parses and re-serializes the Host body, but a parse failure raised
inside that handler is not caught by the sibling except clause and escapes
the handler unhandled. -/
def create_embedding (send : OutboundRequest → Transport)
    (clientBody : String) (clientHeaders : List (String × String)) : ProxyResult :=
  match builtRequest clientBody clientHeaders with
  | none => .httpError 500 ("An unexpected error occurred: " ++ "Expecting value")
  | some req =>
    match send req with
    | .err e => .httpError 502 ("Error connecting to the embedding model service: " ++ e)
    | .reply status rbody =>
      if 200 ≤ status ∧ status ≤ 299 then
        match jsonParse rbody with
        | some v => .response status (renderJson v)
        | none => .httpError 500 ("An unexpected error occurred: " ++ "Expecting value")
      else
        match jsonParse rbody with
        | some v => .response status (renderJson v)
        | none => .unhandled "JSONDecodeError raised inside the HTTPStatusError handler"

/-- C3 counterexample: with the Host replying 200 and a body containing a
space after the colon, the Proxy answers with the compact re-serialization,
which differs from the Host body as a byte string — the claim that the body
is relayed byte-for-byte is false. -/
theorem create_embedding_success_not_byte_exact :
    create_embedding (fun _ => .reply 200 "\x7b\"a\": 1\x7d") "\x7b\x7d" [] =
      .response 200 "\x7b\"a\":1\x7d" ∧
    ("\x7b\"a\":1\x7d" : String) ≠ "\x7b\"a\": 1\x7d" :=
  ⟨rfl, by decide⟩

/-- C3 amended: when the Host is reachable and replies 2xx with a parseable
JSON body, the Proxy returns exactly the Host status code and the compact
re-serialization of the JSON value the Host body parses to (the body is
preserved as a JSON value, not byte-for-byte). -/
theorem create_embedding_success_relay (send : OutboundRequest → Transport)
    (clientBody : String) (clientHeaders : List (String × String))
    (body v : Json) (status : Nat) (rbody : String)
    (hbody : jsonParse clientBody = some body)
    (hsend : send { body := renderJson body, headers := forwardedHeaders clientHeaders,
                    timeout := TIMEOUT } = .reply status rbody)
    (h2xx : 200 ≤ status ∧ status ≤ 299)
    (hparse : jsonParse rbody = some v) :
    create_embedding send clientBody clientHeaders = .response status (renderJson v) := by
  unfold create_embedding builtRequest
  rw [hbody]
  simp [hsend, h2xx, hparse]

/-- Witness for C3 amended, at a Host replying 200 with a compact body. -/
theorem create_embedding_success_relay_witness :
    create_embedding (fun _ => .reply 200 "\x7b\"ok\":true\x7d") "\x7b\x7d" [] =
      .response 200 (renderJson (Json.obj [("ok", Json.bool true)])) :=
  create_embedding_success_relay (fun _ => .reply 200 "\x7b\"ok\":true\x7d")
    "\x7b\x7d" [] (Json.obj []) (Json.obj [("ok", Json.bool true)]) 200
    "\x7b\"ok\":true\x7d" rfl rfl (by omega) rfl

/-- C4: a transport-level failure of the outbound call makes the handler
raise the 502 error whose detail is the fixed connecting-failure text
followed by the transport error, and the outbound request that failed
carried the fixed 60-unit timeout. -/
theorem create_embedding_transport_failure (send : OutboundRequest → Transport)
    (clientBody : String) (clientHeaders : List (String × String))
    (body : Json) (e : String)
    (hbody : jsonParse clientBody = some body)
    (hsend : send { body := renderJson body, headers := forwardedHeaders clientHeaders,
                    timeout := TIMEOUT } = .err e) :
    create_embedding send clientBody clientHeaders =
      .httpError 502 ("Error connecting to the embedding model service: " ++ e) ∧
    builtRequest clientBody clientHeaders =
      some { body := renderJson body, headers := forwardedHeaders clientHeaders,
             timeout := 60 } := by
  constructor
  · unfold create_embedding builtRequest
    rw [hbody]
    simp [hsend]
  · unfold builtRequest
    rw [hbody]
    rfl

/-- Witness for C4 at an unreachable Host. -/
theorem create_embedding_transport_failure_witness :
    create_embedding (fun _ => .err "Connection refused") "\x7b\x7d" [] =
      .httpError 502 ("Error connecting to the embedding model service: " ++
        "Connection refused") ∧
    builtRequest "\x7b\x7d" [] =
      some { body := renderJson (Json.obj []), headers := forwardedHeaders [],
             timeout := 60 } :=
  create_embedding_transport_failure (fun _ => .err "Connection refused")
    "\x7b\x7d" [] (Json.obj []) "Connection refused" rfl rfl

/-- C5 counterexample: a Host business error whose body has a space after
the colon is relayed with the exact status but a re-serialized body that
differs from the Host body — the claim that the exact body is relayed
unchanged is false. -/
theorem create_embedding_error_not_byte_exact :
    create_embedding (fun _ => .reply 404 "\x7b\"detail\": \"no\"\x7d") "\x7b\x7d" [] =
      .response 404 "\x7b\"detail\":\"no\"\x7d" ∧
    ("\x7b\"detail\":\"no\"\x7d" : String) ≠ "\x7b\"detail\": \"no\"\x7d" :=
  ⟨rfl, by decide⟩

/-- C5 amended: when the Host replies with a non-2xx status and a parseable
JSON body, the Proxy relays exactly that status code together with the
compact re-serialization of the JSON value the Host body parses to (the
body is preserved as a JSON value, not byte-for-byte), without mapping the
status to a different error class. -/
theorem create_embedding_error_passthrough (send : OutboundRequest → Transport)
    (clientBody : String) (clientHeaders : List (String × String))
    (body v : Json) (status : Nat) (rbody : String)
    (hbody : jsonParse clientBody = some body)
    (hsend : send { body := renderJson body, headers := forwardedHeaders clientHeaders,
                    timeout := TIMEOUT } = .reply status rbody)
    (hnot2xx : ¬(200 ≤ status ∧ status ≤ 299))
    (hparse : jsonParse rbody = some v) :
    create_embedding send clientBody clientHeaders = .response status (renderJson v) := by
  unfold create_embedding builtRequest
  rw [hbody]
  simp [hsend, hnot2xx, hparse]

/-- Witness for C5 amended, at a Host replying 404 with a compact body. -/
theorem create_embedding_error_passthrough_witness :
    create_embedding (fun _ => .reply 404 "\x7b\"detail\":\"no\"\x7d") "\x7b\x7d" [] =
      .response 404 (renderJson (Json.obj [("detail", Json.str "no")])) :=
  create_embedding_error_passthrough (fun _ => .reply 404 "\x7b\"detail\":\"no\"\x7d")
    "\x7b\x7d" [] (Json.obj []) (Json.obj [("detail", Json.str "no")]) 404
    "\x7b\"detail\":\"no\"\x7d" rfl rfl (by omega) rfl

/-- C6: a Host reply with a non-2xx status and a non-JSON body makes the
body parse raised inside the `HTTPStatusError` handler escape the Proxy
handler unhandled, instead of producing the documented status/detail
shape. -/
theorem create_embedding_unhandled_escape :
    create_embedding (fun _ => .reply 400 "oops") "\x7b\x7d" [] =
      .unhandled "JSONDecodeError raised inside the HTTPStatusError handler" :=
  rfl

/-- C9 counterexample: the outbound body is the compact re-serialization of
the parsed client body, not the client bytes — the claim that the body is
forwarded unmodified is false. -/
theorem builtRequest_reserializes_body :
    builtRequest "\x7b\"model\": \"m\"\x7d" [] =
      some { body := "\x7b\"model\":\"m\"\x7d", headers := [], timeout := 60 } ∧
    ("\x7b\"model\":\"m\"\x7d" : String) ≠ "\x7b\"model\": \"m\"\x7d" :=
  ⟨rfl, by decide⟩

/-- C9 amended: the outbound request carries the compact re-serialization
of the JSON value parsed from the client body (the payload is forwarded as
a JSON value, never inspected field-by-field, but re-serialized rather than
byte-identical), and its headers are exactly the client headers whose
lowercased name is neither "host" nor "content-length". -/
theorem create_embedding_forwarding (clientBody : String)
    (clientHeaders : List (String × String)) (v : Json)
    (hbody : jsonParse clientBody = some v) :
    builtRequest clientBody clientHeaders =
      some { body := renderJson v, headers := forwardedHeaders clientHeaders,
             timeout := 60 } ∧
    (∀ kv : String × String, kv ∈ forwardedHeaders clientHeaders ↔
      kv ∈ clientHeaders ∧ kv.1.toLower ≠ "host" ∧ kv.1.toLower ≠ "content-length") := by
  constructor
  · unfold builtRequest
    rw [hbody]
    rfl
  · intro kv
    simp [forwardedHeaders, List.mem_filter]

/-- Witness for C9 amended, with a host header that is dropped and an
accept header that is kept. -/
theorem create_embedding_forwarding_witness :
    builtRequest "\x7b\x7d" [("Host", "h"), ("accept", "a")] =
      some { body := renderJson (Json.obj []),
             headers := forwardedHeaders [("Host", "h"), ("accept", "a")],
             timeout := 60 } ∧
    (∀ kv : String × String,
      kv ∈ forwardedHeaders [("Host", "h"), ("accept", "a")] ↔
      kv ∈ [("Host", "h"), ("accept", "a")] ∧
        kv.1.toLower ≠ "host" ∧ kv.1.toLower ≠ "content-length") :=
  create_embedding_forwarding "\x7b\x7d" [("Host", "h"), ("accept", "a")]
    (Json.obj []) rfl

end RagApi
